import Mathlib

/-!
Verification of the RTPS-style receive-side wire-protocol engine described by
`src/include/eprosimartps/MessageReceiver.h` and the repository design notes.
The repository ships only the declarations of `MessageReceiver` (its method
bodies live outside `src/`), so the byte cursor, header codecs, submessage
decoders and the `processMsg` orchestration are modelled here from the spec,
keeping the declared names (`readHeader`, `readSubmessageHeader`,
`readSubmessageData`, ..., `processMsg`, `reset`) and the declared receiver
state fields.
-/

namespace RTPS

/-- A wire buffer: the list of byte values that have not been consumed yet.
Consuming `w` bytes from the front advances the read offset by exactly `w`. -/
abbrev Buf := List Nat

/-- Little-endian value of a byte list. -/
def leVal : List Nat → Nat
  | [] => 0
  | b :: r => b + 256 * leVal r

/-- Big-endian value of a byte list. -/
def beVal (l : List Nat) : Nat := leVal l.reverse

/-- Little-endian encoding of `v` on `w` bytes. -/
def leBytes : Nat → Nat → List Nat
  | 0, _ => []
  | w + 1, v => v % 256 :: leBytes w (v / 256)

/-- Modelled from the spec: the Byte Cursor's raw byte-span read (§4.1).
Succeeds iff `n` bytes remain, consuming exactly `n` bytes; a read past the
buffer end fails with no bytes consumed (`none` plays the `OutOfBounds`
condition). -/
def readBytes (n : Nat) (l : Buf) : Option (List Nat × Buf) :=
  if n ≤ l.length then some (l.take n, l.drop n) else none

/-- Modelled from the spec: the Byte Cursor's single-octet read (§4.1). -/
def readOctet : Buf → Option (Nat × Buf)
  | [] => none
  | b :: r => some (b, r)

/-- Modelled from the spec: the Byte Cursor's multi-byte integer read (§4.1),
parameterized by width `w` and endianness (`le = true` for little-endian). -/
def readUInt (w : Nat) (le : Bool) (l : Buf) : Option (Nat × Buf) :=
  if w ≤ l.length then
    some (if le then leVal (l.take w) else beVal (l.take w), l.drop w)
  else none

/-- Modelled from the spec: the Byte Cursor's GUID-prefix-sized span read
(12 bytes, §4.1). -/
def readGuidPref (l : Buf) : Option (List Nat × Buf) := readBytes 12 l

/-- An addressable network endpoint (address + port + kind), used for reply
routing (spec glossary). -/
structure Locator_t where
  kind : Nat
  port : Nat
  address : List Nat
  deriving DecidableEq

/-- The fixed message header: protocol version, vendor id and sender GUID
prefix (the protocol identifier is checked, not stored). -/
structure Header_t where
  protocolVersion : List Nat
  vendorId : List Nat
  guidPref : List Nat
  deriving DecidableEq

/-- One submessage header: kind octet, flags octet (bit 0 selects
little-endian for the body), and the 16-bit octet-length of the body
(0 is the "extends to end of message" sentinel). -/
structure SubmessageHeader_t where
  kind : Nat
  flags : Nat
  length : Nat
  deriving DecidableEq

/-- The per-datagram mutable Receiver State, with the fields declared in
`MessageReceiver.h`. -/
structure RState where
  sourceVersion : List Nat
  sourceVendorId : List Nat
  sourceGuidPref : List Nat
  destGuidPref : List Nat
  unicastReplyLocatorList : List Locator_t
  multicastReplyLocatorList : List Locator_t
  haveTimestamp : Bool
  timestamp : Nat
  destVersion : List Nat
  deriving DecidableEq

/-- The all-unknown GUID prefix (12 zero octets). -/
def unknownGuidPref : List Nat := List.replicate 12 0

/-- Modelled from the spec: `reset()` clears all Receiver State fields to
their defaults — unknown GUID prefixes, empty locator lists, no timestamp
(§4.4). -/
def reset : RState :=
  { sourceVersion := [0, 0]
    sourceVendorId := [0, 0]
    sourceGuidPref := unknownGuidPref
    destGuidPref := unknownGuidPref
    unicastReplyLocatorList := []
    multicastReplyLocatorList := []
    haveTimestamp := false
    timestamp := 0
    destVersion := [0, 0] }

/-- Reasons carried by the single drop outcome that surfaces fatal
conditions to the caller (§7). -/
inductive DropReason
  | invalidProtocolId
  | truncatedHeader
  | truncatedSubheader
  | lengthExceedsBuffer
  | unknownKindSentinel
  deriving DecidableEq

/-- Outcome of processing one datagram: terminal success, or a single drop
notification with a reason code. -/
inductive Outcome
  | done
  | dropped (r : DropReason)
  deriving DecidableEq

/-- The four-byte protocol magic "RTPS". -/
def rtpsMagic : List Nat := [0x52, 0x54, 0x50, 0x53]

/-- Modelled from the spec: `readHeader` (declared in `MessageReceiver.h`,
body not in `src/`): reads protocol id (4 bytes), version (2 bytes), vendor
id (2 bytes), GUID prefix (12 bytes); fails with `InvalidProtocolId` if the
magic does not match, before any further field is read (§4.2). -/
def readHeader (msg : Buf) : Except DropReason (Header_t × Buf) :=
  match readBytes 4 msg with
  | none => .error .truncatedHeader
  | some (pid, r1) =>
    if pid = rtpsMagic then
      match readBytes 2 r1 with
      | none => .error .truncatedHeader
      | some (ver, r2) =>
        match readBytes 2 r2 with
        | none => .error .truncatedHeader
        | some (ven, r3) =>
          match readBytes 12 r3 with
          | none => .error .truncatedHeader
          | some (gp, r4) => .ok (⟨ver, ven, gp⟩, r4)
    else .error .invalidProtocolId

/-- Modelled from the spec: `readSubmessageHeader` (declared in
`MessageReceiver.h`, body not in `src/`): kind (1 byte), flags (1 byte),
length (2 bytes, endianness from the flags' low bit) (§4.2). -/
def readSubmessageHeader (msg : Buf) : Option (SubmessageHeader_t × Buf) :=
  match msg with
  | k :: fl :: rest =>
    match readUInt 2 (fl % 2 == 1) rest with
    | none => none
    | some (len, r) => some (⟨k, fl, len⟩, r)
  | _ => none

/-- Kinds of forwarded events: one per data-bearing/control submessage kind. -/
inductive EvKind
  | dataEv
  | heartbeatEv
  | gapEv
  | acknackEv
  deriving DecidableEq

/-- An outbound event handed to the endpoint collaborator: submessage kind,
the resolved GUID-prefix / timestamp / reply-locator state in effect, and the
kind-specific decoded fields (§6). -/
structure Event where
  kind : EvKind
  sourceGuidPref : List Nat
  destGuidPref : List Nat
  haveTimestamp : Bool
  timestamp : Nat
  unicastReplyLocatorList : List Locator_t
  multicastReplyLocatorList : List Locator_t
  readerId : Nat
  writerId : Nat
  sn1 : Nat
  sn2 : Nat
  bits : Nat
  payload : List Nat
  count : Nat
  deriving DecidableEq

/-- An event template carrying the current Receiver State, with kind-specific
fields zeroed; each decoder fills in its own fields. -/
def baseEvent (st : RState) (k : EvKind) : Event :=
  { kind := k
    sourceGuidPref := st.sourceGuidPref
    destGuidPref := st.destGuidPref
    haveTimestamp := st.haveTimestamp
    timestamp := st.timestamp
    unicastReplyLocatorList := st.unicastReplyLocatorList
    multicastReplyLocatorList := st.multicastReplyLocatorList
    readerId := 0
    writerId := 0
    sn1 := 0
    sn2 := 0
    bits := 0
    payload := []
    count := 0 }

/-- Result of one submessage decoder: the updated state and an optional
forwarded event, or a recoverable per-submessage failure (§7:
`RecoverableSubmessageError`, the decoder found internally inconsistent
fields / would read past the segment implied by `length`). -/
inductive DecRes
  | ok (st : RState) (ev : Option Event)
  | fail
  deriving DecidableEq

/-- Modelled from the spec: `readSubmessageData` (declared in
`MessageReceiver.h`, body not in `src/`): decodes writer/reader entity ids,
the sequence number and the serialized payload span, and forwards a data
event carrying the current state (§4.3; the inline-QoS wire layout is not
given by the spec and is not modelled). -/
def readSubmessageData (st : RState) (smh : SubmessageHeader_t) (body : Buf) : DecRes :=
  match readUInt 4 (smh.flags % 2 == 1) body with
  | none => .fail
  | some (r, b1) =>
    match readUInt 4 (smh.flags % 2 == 1) b1 with
    | none => .fail
    | some (w, b2) =>
      match readUInt 8 (smh.flags % 2 == 1) b2 with
      | none => .fail
      | some (sn, b3) =>
        .ok st (some { baseEvent st .dataEv with
          readerId := r, writerId := w, sn1 := sn, payload := b3 })

/-- Modelled from the spec: `readSubmessageHeartbeat` (declared in
`MessageReceiver.h`, body not in `src/`): decodes writer/reader entity ids
and the first/last available sequence numbers; forwarded as a control event
(§4.3). -/
def readSubmessageHeartbeat (st : RState) (smh : SubmessageHeader_t) (body : Buf) : DecRes :=
  match readUInt 4 (smh.flags % 2 == 1) body with
  | none => .fail
  | some (r, b1) =>
    match readUInt 4 (smh.flags % 2 == 1) b1 with
    | none => .fail
    | some (w, b2) =>
      match readUInt 8 (smh.flags % 2 == 1) b2 with
      | none => .fail
      | some (fsn, b3) =>
        match readUInt 8 (smh.flags % 2 == 1) b3 with
        | none => .fail
        | some (lsn, _) =>
          .ok st (some { baseEvent st .heartbeatEv with
            readerId := r, writerId := w, sn1 := fsn, sn2 := lsn })

/-- Modelled from the spec: `readSubmessageGap` (declared in
`MessageReceiver.h`, body not in `src/`): decodes writer/reader entity ids
and the sequence-number-set of irrecoverably missing samples (base, bit
count, bitmap words); forwarded as a control event (§4.3). -/
def readSubmessageGap (st : RState) (smh : SubmessageHeader_t) (body : Buf) : DecRes :=
  match readUInt 4 (smh.flags % 2 == 1) body with
  | none => .fail
  | some (r, b1) =>
    match readUInt 4 (smh.flags % 2 == 1) b1 with
    | none => .fail
    | some (w, b2) =>
      match readUInt 8 (smh.flags % 2 == 1) b2 with
      | none => .fail
      | some (gs, b3) =>
        match readUInt 8 (smh.flags % 2 == 1) b3 with
        | none => .fail
        | some (base, b4) =>
          match readUInt 4 (smh.flags % 2 == 1) b4 with
          | none => .fail
          | some (nbits, b5) =>
            match readBytes (4 * ((nbits + 31) / 32)) b5 with
            | none => .fail
            | some (bm, _) =>
              .ok st (some { baseEvent st .gapEv with
                readerId := r, writerId := w, sn1 := gs, sn2 := base,
                bits := nbits, payload := bm })

/-- Modelled from the spec: `readSubmessageAcknak` (declared in
`MessageReceiver.h`, body not in `src/`): decodes writer/reader entity ids,
the acknowledged sequence-number-set and a count used for
duplicate-suppression; forwarded as a control event (§4.3). -/
def readSubmessageAcknak (st : RState) (smh : SubmessageHeader_t) (body : Buf) : DecRes :=
  match readUInt 4 (smh.flags % 2 == 1) body with
  | none => .fail
  | some (r, b1) =>
    match readUInt 4 (smh.flags % 2 == 1) b1 with
    | none => .fail
    | some (w, b2) =>
      match readUInt 8 (smh.flags % 2 == 1) b2 with
      | none => .fail
      | some (base, b3) =>
        match readUInt 4 (smh.flags % 2 == 1) b3 with
        | none => .fail
        | some (nbits, b4) =>
          match readBytes (4 * ((nbits + 31) / 32)) b4 with
          | none => .fail
          | some (bm, b5) =>
            match readUInt 4 (smh.flags % 2 == 1) b5 with
            | none => .fail
            | some (cnt, _) =>
              .ok st (some { baseEvent st .acknackEv with
                readerId := r, writerId := w, sn1 := base,
                bits := nbits, payload := bm, count := cnt })

/-- Modelled from the spec: `readSubmessagePad` (declared in
`MessageReceiver.h`, body not in `src/`): consumes its declared length and
discards it; always succeeds (§4.3). -/
def readSubmessagePad (st : RState) (_smh : SubmessageHeader_t) (_body : Buf) : DecRes :=
  .ok st none

/-- Modelled from the spec: `readSubmessageInfoDestination` (declared in
`MessageReceiver.h`, body not in `src/`): overwrites `destGuidPrefix` from
the body (§4.3). -/
def readSubmessageInfoDestination (st : RState) (_smh : SubmessageHeader_t) (body : Buf) : DecRes :=
  match readBytes 12 body with
  | none => .fail
  | some (gp, _) => .ok { st with destGuidPref := gp } none

/-- Modelled from the spec: `readSubmessageInfoSource` (declared in
`MessageReceiver.h`, body not in `src/`): overwrites `sourceVersion`,
`sourceVendorId`, `sourceGuidPrefix` from the body (§4.3). -/
def readSubmessageInfoSource (st : RState) (_smh : SubmessageHeader_t) (body : Buf) : DecRes :=
  match readBytes 2 body with
  | none => .fail
  | some (ver, b1) =>
    match readBytes 2 b1 with
    | none => .fail
    | some (ven, b2) =>
      match readBytes 12 b2 with
      | none => .fail
      | some (gp, _) =>
        .ok { st with sourceVersion := ver, sourceVendorId := ven, sourceGuidPref := gp } none

/-- Modelled from the spec: `readSubmessageInfoTimestamp` (declared in
`MessageReceiver.h`, body not in `src/`): sets `haveTimestamp = true` and
`timestamp` from the body, unless the header's invalidate flag (bit 1) is
set, in which case `haveTimestamp = false`; applies to subsequently decoded
data-bearing submessages until overridden or until a new message begins
(§4.3). -/
def readSubmessageInfoTimestamp (st : RState) (smh : SubmessageHeader_t) (body : Buf) : DecRes :=
  if smh.flags / 2 % 2 == 1 then
    .ok { st with haveTimestamp := false } none
  else
    match readUInt 8 (smh.flags % 2 == 1) body with
    | none => .fail
    | some (t, _) => .ok { st with haveTimestamp := true, timestamp := t } none

/-- Modelled from the spec: one locator on the wire — kind (4 bytes), port
(4 bytes), address (16 bytes) (spec glossary). -/
def readLocator (le : Bool) (l : Buf) : Option (Locator_t × Buf) :=
  match readUInt 4 le l with
  | none => none
  | some (k, r1) =>
    match readUInt 4 le r1 with
    | none => none
    | some (p, r2) =>
      match readBytes 16 r2 with
      | none => none
      | some (a, r3) => some (⟨k, p, a⟩, r3)

/-- Reads `n` consecutive locators. -/
def readLocators (le : Bool) : Nat → Buf → Option (List Locator_t × Buf)
  | 0, l => some ([], l)
  | n + 1, l =>
    match readLocator le l with
    | none => none
    | some (loc, r) =>
      match readLocators le n r with
      | none => none
      | some (locs, r') => some (loc :: locs, r')

/-- A counted locator sequence: 4-byte count, then that many locators. -/
def readLocatorList (le : Bool) (l : Buf) : Option (List Locator_t × Buf) :=
  match readUInt 4 le l with
  | none => none
  | some (n, r) => readLocators le n r

/-- Modelled from the spec: `readSubmessageInfoReply` (declared in
`MessageReceiver.h`, body not in `src/`): replaces
`unicastReplyLocatorList` and, if present (flags bit 1), also
`multicastReplyLocatorList` from the body's locator sequences (§4.3). -/
def readSubmessageInfoReply (st : RState) (smh : SubmessageHeader_t) (body : Buf) : DecRes :=
  match readLocatorList (smh.flags % 2 == 1) body with
  | none => .fail
  | some (uni, r1) =>
    if smh.flags / 2 % 2 == 1 then
      match readLocatorList (smh.flags % 2 == 1) r1 with
      | none => .fail
      | some (multi, _) =>
        .ok { st with unicastReplyLocatorList := uni, multicastReplyLocatorList := multi } none
    else .ok { st with unicastReplyLocatorList := uni } none

/-- Wire identifiers of the nine recognized submessage kinds. -/
def padId : Nat := 0x01
/-- ACKNACK submessage id. -/
def acknackId : Nat := 0x06
/-- HEARTBEAT submessage id. -/
def heartbeatId : Nat := 0x07
/-- GAP submessage id. -/
def gapId : Nat := 0x08
/-- INFO_TIMESTAMP submessage id. -/
def infoTsId : Nat := 0x09
/-- INFO_SOURCE submessage id. -/
def infoSrcId : Nat := 0x0c
/-- INFO_DESTINATION submessage id. -/
def infoDstId : Nat := 0x0e
/-- INFO_REPLY submessage id. -/
def infoReplyId : Nat := 0x0f
/-- DATA submessage id. -/
def dataId : Nat := 0x15

/-- Whether a submessage kind is one of the nine recognized kinds. -/
def knownKind (k : Nat) : Bool :=
  k == padId || k == acknackId || k == heartbeatId || k == gapId ||
  k == infoTsId || k == infoSrcId || k == infoDstId || k == infoReplyId ||
  k == dataId

/-- Modelled from the spec: the orchestrator's kind-indexed decoder lookup
(§4.4 step 2). -/
def dispatch (st : RState) (smh : SubmessageHeader_t) (body : Buf) : DecRes :=
  if smh.kind = dataId then readSubmessageData st smh body
  else if smh.kind = heartbeatId then readSubmessageHeartbeat st smh body
  else if smh.kind = gapId then readSubmessageGap st smh body
  else if smh.kind = acknackId then readSubmessageAcknak st smh body
  else if smh.kind = padId then readSubmessagePad st smh body
  else if smh.kind = infoDstId then readSubmessageInfoDestination st smh body
  else if smh.kind = infoSrcId then readSubmessageInfoSource st smh body
  else if smh.kind = infoTsId then readSubmessageInfoTimestamp st smh body
  else if smh.kind = infoReplyId then readSubmessageInfoReply st smh body
  else .fail

/-- Result of processing one datagram: the forwarded events in wire order,
the number of recoverable (counted, non-fatal) submessage errors, the
terminal outcome, and the final Receiver State. -/
structure PResult where
  events : List Event
  errors : Nat
  outcome : Outcome
  final : RState
  deriving DecidableEq

/-- Modelled from the spec: the `DispatchingSubmessages` loop of the Message
Receiver state machine (§4.4): repeatedly decode a submessage header and
invoke the matching decoder; a zero length is the to-end-of-message sentinel;
unknown kinds with a usable length are skipped; unknown kinds with the
sentinel are fatal; a length exceeding the remaining buffer is fatal; a
recoverable decoder failure is counted and the cursor still advances by the
declared length; the loop reaches `Done` when the buffer is exhausted exactly
at a submessage boundary, and ending mid-header is fatal. The first argument
is recursion fuel; `processMsg` supplies the buffer length, which exceeds the
number of submessages, so fuel never runs out. -/
def processLoop : Nat → RState → Buf → PResult
  | _, st, [] => ⟨[], 0, .done, st⟩
  | 0, st, _ :: _ => ⟨[], 0, .done, st⟩
  | fuel + 1, st, b :: bs =>
    match readSubmessageHeader (b :: bs) with
    | none => ⟨[], 0, .dropped .truncatedSubheader, st⟩
    | some (smh, r1) =>
      if smh.length = 0 then
        if knownKind smh.kind then
          match dispatch st smh r1 with
          | .ok st' ev => ⟨ev.toList, 0, .done, st'⟩
          | .fail => ⟨[], 1, .done, st⟩
        else ⟨[], 0, .dropped .unknownKindSentinel, st⟩
      else if smh.length ≤ r1.length then
        if knownKind smh.kind then
          match dispatch st smh (r1.take smh.length) with
          | .ok st' ev =>
            let p := processLoop fuel st' (r1.drop smh.length)
            ⟨ev.toList ++ p.events, p.errors, p.outcome, p.final⟩
          | .fail =>
            let p := processLoop fuel st (r1.drop smh.length)
            ⟨p.events, p.errors + 1, p.outcome, p.final⟩
        else
          let p := processLoop fuel st (r1.drop smh.length)
          ⟨p.events, p.errors, p.outcome, p.final⟩
      else ⟨[], 0, .dropped .lengthExceedsBuffer, st⟩

/-- Modelled from the spec: `processMsg` (declared in `MessageReceiver.h`,
body not in `src/`): resets the Receiver State, decodes the fixed header
(initializing the source identity from it), then walks the submessage stream
(§4.4). The incoming state is discarded — every call starts from `reset` —
and the participant GUID prefix and source address are accepted but not
consulted by the framing layer, as in the spec's caller contract (§6). -/
def processMsg (_s : RState) (_participantGp _address : List Nat) (data : Buf) : PResult :=
  match readHeader data with
  | .error r => ⟨[], 0, .dropped r, reset⟩
  | .ok (hd, rest) =>
    processLoop rest.length
      { reset with
        sourceVersion := hd.protocolVersion
        sourceVendorId := hd.vendorId
        sourceGuidPref := hd.guidPref } rest

/-- Abstract submessages of a datagram, used to state the spec's properties
about valid datagrams (§8). -/
inductive Sub
  | pad (body : List Nat)
  | data (rId wId sn : Nat) (payload : List Nat)
  | heartbeat (rId wId fsn lsn : Nat)
  | gap (rId wId gs base nbits : Nat) (bm : List Nat)
  | acknack (rId wId base nbits : Nat) (bm : List Nat) (cnt : Nat)
  | infoDst (gp : List Nat)
  | infoSrc (ver ven gp : List Nat)
  | infoTs (t : Option Nat)
  | infoReply (uni : List Locator_t) (multi : Option (List Locator_t))
  deriving DecidableEq

/-- Wire encoding of one locator: kind, port, address. -/
def encLoc (loc : Locator_t) : List Nat :=
  leBytes 4 loc.kind ++ leBytes 4 loc.port ++ loc.address

/-- Concatenated wire encodings of a list of locators. -/
def encLocBodies : List Locator_t → List Nat
  | [] => []
  | l :: r => encLoc l ++ encLocBodies r

/-- Wire encoding of a counted locator sequence. -/
def encLocs (ls : List Locator_t) : List Nat :=
  leBytes 4 ls.length ++ encLocBodies ls

/-- The wire kind id of an abstract submessage. -/
def subKindId : Sub → Nat
  | .pad _ => padId
  | .data _ _ _ _ => dataId
  | .heartbeat _ _ _ _ => heartbeatId
  | .gap _ _ _ _ _ _ => gapId
  | .acknack _ _ _ _ _ _ => acknackId
  | .infoDst _ => infoDstId
  | .infoSrc _ _ _ => infoSrcId
  | .infoTs _ => infoTsId
  | .infoReply _ _ => infoReplyId

/-- The flags octet the encoder emits: bit 0 set (little-endian body), bit 1
set for an INFO_TIMESTAMP invalidation or an INFO_REPLY with a multicast
list. -/
def subFlags : Sub → Nat
  | .pad _ => 1
  | .data _ _ _ _ => 1
  | .heartbeat _ _ _ _ => 1
  | .gap _ _ _ _ _ _ => 1
  | .acknack _ _ _ _ _ _ => 1
  | .infoDst _ => 1
  | .infoSrc _ _ _ => 1
  | .infoTs (some _) => 1
  | .infoTs none => 3
  | .infoReply _ none => 1
  | .infoReply _ (some _) => 3

/-- Wire encoding of an abstract submessage's body. An invalidating
INFO_TIMESTAMP still carries a (ignored) timestamp field so that its length
is explicit rather than the to-end sentinel. -/
def encodeSubBody : Sub → List Nat
  | .pad body => body
  | .data r w sn pl => leBytes 4 r ++ leBytes 4 w ++ leBytes 8 sn ++ pl
  | .heartbeat r w f l => leBytes 4 r ++ leBytes 4 w ++ leBytes 8 f ++ leBytes 8 l
  | .gap r w gs base nbits bm =>
    leBytes 4 r ++ leBytes 4 w ++ leBytes 8 gs ++ leBytes 8 base ++ leBytes 4 nbits ++ bm
  | .acknack r w base nbits bm cnt =>
    leBytes 4 r ++ leBytes 4 w ++ leBytes 8 base ++ leBytes 4 nbits ++ bm ++ leBytes 4 cnt
  | .infoDst gp => gp
  | .infoSrc ver ven gp => ver ++ ven ++ gp
  | .infoTs (some t) => leBytes 8 t
  | .infoTs none => leBytes 8 0
  | .infoReply uni none => encLocs uni
  | .infoReply uni (some m) => encLocs uni ++ encLocs m

/-- Wire encoding of an abstract submessage: kind octet, flags octet, 16-bit
explicit length, body. -/
def encodeSub (s : Sub) : List Nat :=
  subKindId s :: subFlags s :: (leBytes 2 (encodeSubBody s).length ++ encodeSubBody s)

/-- Wire encoding of a submessage sequence. -/
def encodeSubs : List Sub → List Nat
  | [] => []
  | s :: r => encodeSub s ++ encodeSubs r

/-- Well-formed locator: fields fit their wire widths. -/
def wfLoc (loc : Locator_t) : Bool :=
  decide (loc.kind < 4294967296) && decide (loc.port < 4294967296) &&
  decide (loc.address.length = 16)

/-- Well-formed locator list: count fits 32 bits, members well-formed. -/
def wfLocs (ls : List Locator_t) : Bool :=
  decide (ls.length < 4294967296) && ls.all wfLoc

/-- Kind-specific field bounds an abstract submessage must satisfy to be a
valid wire submessage. -/
def wfSubFields : Sub → Bool
  | .pad _ => true
  | .data r w sn _ =>
    decide (r < 4294967296) && decide (w < 4294967296) &&
    decide (sn < 18446744073709551616)
  | .heartbeat r w f l =>
    decide (r < 4294967296) && decide (w < 4294967296) &&
    decide (f < 18446744073709551616) && decide (l < 18446744073709551616)
  | .gap r w gs base nbits bm =>
    decide (r < 4294967296) && decide (w < 4294967296) &&
    decide (gs < 18446744073709551616) && decide (base < 18446744073709551616) &&
    decide (nbits < 4294967296) && decide (bm.length = 4 * ((nbits + 31) / 32))
  | .acknack r w base nbits bm cnt =>
    decide (r < 4294967296) && decide (w < 4294967296) &&
    decide (base < 18446744073709551616) && decide (nbits < 4294967296) &&
    decide (bm.length = 4 * ((nbits + 31) / 32)) && decide (cnt < 4294967296)
  | .infoDst gp => decide (gp.length = 12)
  | .infoSrc ver ven gp =>
    decide (ver.length = 2) && decide (ven.length = 2) && decide (gp.length = 12)
  | .infoTs (some v) => decide (v < 18446744073709551616)
  | .infoTs none => true
  | .infoReply uni none => wfLocs uni
  | .infoReply uni (some m) => wfLocs uni && wfLocs m

/-- Well-formed abstract submessage: field bounds hold and the body length is
explicit (nonzero, so not the sentinel) and fits the 16-bit length field. -/
def wfSub (s : Sub) : Bool :=
  wfSubFields s && decide (1 ≤ (encodeSubBody s).length) &&
  decide ((encodeSubBody s).length ≤ 65535)

/-- All submessages of a sequence are well-formed. -/
def wfSubs (subs : List Sub) : Bool := subs.all wfSub

/-- An abstract datagram: the fixed-header fields and the submessage
sequence. -/
structure Datagram where
  version : List Nat
  vendorId : List Nat
  guidPref : List Nat
  subs : List Sub
  deriving DecidableEq

/-- Wire encoding of the fixed message header (§6: 4-byte magic, 2-byte
version, 2-byte vendor id, 12-byte GUID prefix). -/
def encodeHeader (d : Datagram) : List Nat :=
  rtpsMagic ++ d.version ++ d.vendorId ++ d.guidPref

/-- Wire encoding of an abstract datagram. -/
def encodeDatagram (d : Datagram) : List Nat :=
  encodeHeader d ++ encodeSubs d.subs

/-- Well-formed datagram: header fields have their wire widths and every
submessage is well-formed. -/
def wfDatagram (d : Datagram) : Bool :=
  decide (d.version.length = 2) && decide (d.vendorId.length = 2) &&
  decide (d.guidPref.length = 12) && wfSubs d.subs

/-- The Receiver State in effect when dispatching starts: reset defaults with
the source identity taken from the message header. -/
def initState (d : Datagram) : RState :=
  { reset with
    sourceVersion := d.version
    sourceVendorId := d.vendorId
    sourceGuidPref := d.guidPref }

/-- Modelled from the spec's words (§4.3 table): the state mutation each
submessage kind performs, written at the abstract-submessage level for the
refinement statement. -/
def specApply (st : RState) : Sub → RState
  | .infoDst gp => { st with destGuidPref := gp }
  | .infoSrc ver ven gp =>
    { st with sourceVersion := ver, sourceVendorId := ven, sourceGuidPref := gp }
  | .infoTs (some t) => { st with haveTimestamp := true, timestamp := t }
  | .infoTs none => { st with haveTimestamp := false }
  | .infoReply uni (some m) =>
    { st with unicastReplyLocatorList := uni, multicastReplyLocatorList := m }
  | .infoReply uni none => { st with unicastReplyLocatorList := uni }
  | .pad _ => st
  | .data _ _ _ _ => st
  | .heartbeat _ _ _ _ => st
  | .gap _ _ _ _ _ _ => st
  | .acknack _ _ _ _ _ _ => st

/-- Modelled from the spec's words (§4.3, §6): the one event a data-bearing or
control submessage forwards, carrying the GUID-prefix / timestamp /
reply-locator state in effect, written at the abstract-submessage level for
the refinement statement. -/
def specEvent (st : RState) : Sub → Option Event
  | .data r w sn pl =>
    some { baseEvent st .dataEv with readerId := r, writerId := w, sn1 := sn, payload := pl }
  | .heartbeat r w f l =>
    some { baseEvent st .heartbeatEv with readerId := r, writerId := w, sn1 := f, sn2 := l }
  | .gap r w gs base nbits bm =>
    some { baseEvent st .gapEv with
      readerId := r, writerId := w, sn1 := gs, sn2 := base, bits := nbits, payload := bm }
  | .acknack r w base nbits bm cnt =>
    some { baseEvent st .acknackEv with
      readerId := r, writerId := w, sn1 := base, bits := nbits, payload := bm, count := cnt }
  | .pad _ => none
  | .infoDst _ => none
  | .infoSrc _ _ _ => none
  | .infoTs _ => none
  | .infoReply _ _ => none

/-- Modelled from the spec's words (§8, first property): the event sequence a
valid datagram's submessages must produce — one event per data-bearing or
control submessage, in wire order, each carrying the state in effect at that
point in the stream. -/
def specEventsFrom (st : RState) : List Sub → List Event
  | [] => []
  | s :: rest => (specEvent st s).toList ++ specEventsFrom (specApply st s) rest

/-- The Receiver State after applying a submessage sequence. -/
def specFinalFrom (st : RState) : List Sub → RState
  | [] => st
  | s :: rest => specFinalFrom (specApply st s) rest

/-- Whether an abstract submessage is data-bearing or control (forwarded). -/
def isDataBearing : Sub → Bool
  | .data _ _ _ _ => true
  | .heartbeat _ _ _ _ => true
  | .gap _ _ _ _ _ _ => true
  | .acknack _ _ _ _ _ _ => true
  | .pad _ => false
  | .infoDst _ => false
  | .infoSrc _ _ _ => false
  | .infoTs _ => false
  | .infoReply _ _ => false

/-- Modelled from the source declaration (`MessageReceiver.h`, line 40-42):
`processMsg` receives the buffer length as a C++ `short`, a signed 16-bit
integer; this predicate holds of exactly the values that parameter can
carry. -/
def processMsgLengthOk (n : Int) : Bool :=
  decide (-32768 ≤ n) && decide (n ≤ 32767)

/-- The message-header bytes described by the spec's concrete PAD scenario
(§8): magic "RTPS", version 2.1, vendor id 0x0110, GUID prefix of 12 zero
bytes. -/
def c8HeaderBytes : List Nat :=
  rtpsMagic ++ [2, 1] ++ [0x01, 0x10] ++ List.replicate 12 0

/-- The full input of the spec's concrete PAD scenario: the header above
followed by a single PAD submessage of declared length 0. -/
def c8Input : List Nat := c8HeaderBytes ++ [0x01, 0x01, 0, 0]

/-- A small concrete datagram exercising an INFO_DESTINATION, a DATA and a
PAD submessage. -/
def sampleDatagram : Datagram :=
  ⟨[2, 1], [1, 16], List.replicate 12 0,
    [Sub.infoDst (List.replicate 12 1), Sub.data 1 2 3 [9], Sub.pad [0, 0]]⟩

theorem leBytes_length (w v : Nat) : (leBytes w v).length = w := by
  induction w generalizing v with
  | zero => rfl
  | succ w ih => simp [leBytes, ih]

theorem leVal_leBytes (w v : Nat) : leVal (leBytes w v) = v % 256 ^ w := by
  induction w generalizing v with
  | zero => simp [leBytes, leVal, Nat.mod_one]
  | succ w ih =>
    simp only [leBytes, leVal, ih]
    rw [pow_succ', Nat.mod_mul]

theorem readBytes_exact {n : Nat} (l r : Buf) (h : l.length = n) :
    readBytes n (l ++ r) = some (l, r) := by
  subst h
  simp [readBytes, List.take_left, List.drop_left]

theorem readUInt_enc (w v : Nat) (rest : Buf) (hv : v < 256 ^ w) :
    readUInt w true (leBytes w v ++ rest) = some (v, rest) := by
  have hlen : (leBytes w v).length = w := leBytes_length w v
  have h1 : (leBytes w v ++ rest).take w = leBytes w v := List.take_left' hlen
  have h2 : (leBytes w v ++ rest).drop w = rest := List.drop_left' hlen
  simp [readUInt, h1, h2, leVal_leBytes, Nat.mod_eq_of_lt hv, List.length_append, hlen]

theorem readSubmessageHeader_enc (k fl L : Nat) (tail : Buf)
    (hfl : fl % 2 = 1) (hL : L < 65536) :
    readSubmessageHeader (k :: fl :: (leBytes 2 L ++ tail)) = some (⟨k, fl, L⟩, tail) := by
  have h2 : L < 256 ^ 2 := by
    have : (256 : Nat) ^ 2 = 65536 := by norm_num
    omega
  have h3 : readUInt 2 true (leBytes 2 L ++ tail) = some (L, tail) := readUInt_enc 2 L tail h2
  simp [readSubmessageHeader, hfl, h3]

/-- C7: every Byte Cursor read (octet, 16/32/64-bit integer, byte span,
GUID-prefix span) succeeds iff the requested width fits in the remaining
buffer, in which case it consumes (advances the offset by) exactly that
width; otherwise it fails (the `OutOfBounds` condition, `none`) consuming
nothing — no read succeeds partially. -/
theorem byte_cursor_read_exact :
    (∀ l : Buf, (1 ≤ l.length → ∃ v, readOctet l = some (v, l.drop 1)) ∧
      (l.length < 1 → readOctet l = none))
  ∧ (∀ (le : Bool) (l : Buf), (2 ≤ l.length → ∃ v, readUInt 2 le l = some (v, l.drop 2)) ∧
      (l.length < 2 → readUInt 2 le l = none))
  ∧ (∀ (le : Bool) (l : Buf), (4 ≤ l.length → ∃ v, readUInt 4 le l = some (v, l.drop 4)) ∧
      (l.length < 4 → readUInt 4 le l = none))
  ∧ (∀ (le : Bool) (l : Buf), (8 ≤ l.length → ∃ v, readUInt 8 le l = some (v, l.drop 8)) ∧
      (l.length < 8 → readUInt 8 le l = none))
  ∧ (∀ (n : Nat) (l : Buf), (n ≤ l.length → readBytes n l = some (l.take n, l.drop n)) ∧
      (l.length < n → readBytes n l = none))
  ∧ (∀ l : Buf, (12 ≤ l.length → readGuidPref l = some (l.take 12, l.drop 12)) ∧
      (l.length < 12 → readGuidPref l = none)) := by
  have hu : ∀ (w : Nat) (le : Bool) (l : Buf),
      (w ≤ l.length → ∃ v, readUInt w le l = some (v, l.drop w)) ∧
      (l.length < w → readUInt w le l = none) := by
    intro w le l
    constructor
    · intro h
      refine ⟨if le then leVal (l.take w) else beVal (l.take w), ?_⟩
      unfold readUInt
      rw [if_pos h]
    · intro h
      unfold readUInt
      rw [if_neg (by omega)]
  have hb : ∀ (n : Nat) (l : Buf),
      (n ≤ l.length → readBytes n l = some (l.take n, l.drop n)) ∧
      (l.length < n → readBytes n l = none) := by
    intro n l
    constructor
    · intro h
      unfold readBytes
      rw [if_pos h]
    · intro h
      unfold readBytes
      rw [if_neg (by omega)]
  refine ⟨?_, fun le l => hu 2 le l, fun le l => hu 4 le l, fun le l => hu 8 le l,
    hb, fun l => hb 12 l⟩
  intro l
  constructor
  · intro h
    match l with
    | b :: r => exact ⟨b, rfl⟩
  · intro h
    match l with
    | [] => rfl

theorem byte_cursor_read_exact_witness :
    (∃ v, readOctet [5] = some (v, ([5] : Buf).drop 1))
  ∧ readUInt 4 true [1, 2, 3] = none
  ∧ readBytes 2 [9, 9, 9] = some (([9, 9, 9] : Buf).take 2, ([9, 9, 9] : Buf).drop 2) :=
  ⟨(byte_cursor_read_exact.1 [5]).1 (by decide),
   (byte_cursor_read_exact.2.2.1 true [1, 2, 3]).2 (by decide),
   (byte_cursor_read_exact.2.2.2.2.1 2 [9, 9, 9]).1 (by decide)⟩

/-- C2: a datagram whose 4-byte protocol identifier differs from the "RTPS"
magic is rejected whole: `processMsg` drops it with `invalidProtocolId`, no
submessage is parsed, no event is forwarded and no recoverable error is even
counted. -/
theorem processMsg_bad_magic_rejects (s : RState) (gp addr : List Nat) (data : Buf)
    (h4 : 4 ≤ data.length) (hm : data.take 4 ≠ rtpsMagic) :
    processMsg s gp addr data = ⟨[], 0, .dropped .invalidProtocolId, reset⟩ := by
  unfold processMsg readHeader readBytes
  rw [if_pos h4]
  simp [hm]

theorem processMsg_bad_magic_rejects_witness :
    processMsg reset [] [] [0, 0, 0, 0] = ⟨[], 0, .dropped .invalidProtocolId, reset⟩ :=
  processMsg_bad_magic_rejects reset [] [] [0, 0, 0, 0] (by decide) (by decide)

/-- C6: no Receiver State leaks across datagrams — processing datagram A and
then datagram B yields for B exactly the result of processing B alone from a
reset receiver, for any distinct datagrams A and B. -/
theorem processMsg_no_cross_datagram_leak (s : RState) (gpA adA A gpB adB B : List Nat)
    (_hAB : A ≠ B) :
    processMsg (processMsg s gpA adA A).final gpB adB B = processMsg reset gpB adB B := rfl

theorem processMsg_no_cross_datagram_leak_witness :
    processMsg (processMsg reset [] [] [0]).final [] [] [] = processMsg reset [] [] [] :=
  processMsg_no_cross_datagram_leak reset [] [] [0] [] [] [] (by decide)

/-- C10: the `length` parameter of `processMsg` is a C++ signed 16-bit
`short`: every representable length is at most 32767 (below the 65535-byte
UDP maximum, which is not representable), and negative values such as -1 are
representable and accepted by the signature. -/
theorem processMsg_length_is_short (n : Int) (h : processMsgLengthOk n = true) :
    n ≤ 32767
  ∧ (32767 : Int) < 65535
  ∧ processMsgLengthOk 32767 = true
  ∧ processMsgLengthOk (-1) = true
  ∧ processMsgLengthOk 65535 = false := by
  simp only [processMsgLengthOk, Bool.and_eq_true, decide_eq_true_eq] at h
  exact ⟨h.2, by norm_num, by decide, by decide, by decide⟩

theorem processMsg_length_is_short_witness :
    (0 : Int) ≤ 32767
  ∧ (32767 : Int) < 65535
  ∧ processMsgLengthOk 32767 = true
  ∧ processMsgLengthOk (-1) = true
  ∧ processMsgLengthOk 65535 = false :=
  processMsg_length_is_short 0 (by decide)

/-- C8 counterexample: the message header carrying the scenario's fields
(magic "RTPS", version 2.1, vendor id 0x0110, GUID prefix of 12 zero bytes)
occupies 20 bytes on the wire — 4 + 2 + 2 + 12 per the spec's own wire
invariants — not 28: `readHeader` consumes exactly those 20 bytes of the
scenario input, leaving the 4 PAD bytes, so the claimed input beginning with
a 28-byte header does not exist in this wire format. -/
theorem pad_scenario_header_not_28 :
    c8HeaderBytes.length = 20
  ∧ c8HeaderBytes.length ≠ 28
  ∧ readHeader c8Input = .ok (⟨[2, 1], [1, 16], List.replicate 12 0⟩, [1, 1, 0, 0]) :=
  ⟨rfl, by decide, rfl⟩

/-- C8 amended: a 20-byte header (magic "RTPS", version 2.1, vendor id
0x0110, GUID prefix of 12 zero bytes) followed by a single PAD submessage of
declared length 0 reaches the Done terminal state with zero forwarded events
and no recorded errors. -/
theorem pad_scenario_done_no_events :
    (processMsg reset [] [] c8Input).events = []
  ∧ (processMsg reset [] [] c8Input).errors = 0
  ∧ (processMsg reset [] [] c8Input).outcome = .done :=
  ⟨rfl, rfl, rfl⟩

theorem readBytes_all (l : Buf) : readBytes l.length l = some (l, []) := by
  simp [readBytes]

theorem readUInt_enc_all (w v : Nat) (hv : v < 256 ^ w) :
    readUInt w true (leBytes w v) = some (v, []) := by
  have h := readUInt_enc w v [] hv
  simpa using h

theorem readSubmessageData_enc (st : RState) (fl L r w sn : Nat) (pl : Buf)
    (hfl : fl % 2 = 1) (hr : r < 4294967296) (hw : w < 4294967296)
    (hsn : sn < 18446744073709551616) :
    readSubmessageData st ⟨dataId, fl, L⟩ (leBytes 4 r ++ leBytes 4 w ++ leBytes 8 sn ++ pl) =
      .ok st (some { baseEvent st .dataEv with
        readerId := r, writerId := w, sn1 := sn, payload := pl }) := by
  have h32 : (256 : Nat) ^ 4 = 4294967296 := by norm_num
  have h64 : (256 : Nat) ^ 8 = 18446744073709551616 := by norm_num
  have e1 := readUInt_enc 4 r (leBytes 4 w ++ (leBytes 8 sn ++ pl)) (by omega)
  have e2 := readUInt_enc 4 w (leBytes 8 sn ++ pl) (by omega)
  have e3 := readUInt_enc 8 sn pl (by omega)
  simp [readSubmessageData, hfl, List.append_assoc, e1, e2, e3]

theorem readSubmessageHeartbeat_enc (st : RState) (fl L r w f l : Nat)
    (hfl : fl % 2 = 1) (hr : r < 4294967296) (hw : w < 4294967296)
    (hf : f < 18446744073709551616) (hl : l < 18446744073709551616) :
    readSubmessageHeartbeat st ⟨heartbeatId, fl, L⟩
        (leBytes 4 r ++ leBytes 4 w ++ leBytes 8 f ++ leBytes 8 l) =
      .ok st (some { baseEvent st .heartbeatEv with
        readerId := r, writerId := w, sn1 := f, sn2 := l }) := by
  have h32 : (256 : Nat) ^ 4 = 4294967296 := by norm_num
  have h64 : (256 : Nat) ^ 8 = 18446744073709551616 := by norm_num
  have e1 := readUInt_enc 4 r (leBytes 4 w ++ (leBytes 8 f ++ leBytes 8 l)) (by omega)
  have e2 := readUInt_enc 4 w (leBytes 8 f ++ leBytes 8 l) (by omega)
  have e3 := readUInt_enc 8 f (leBytes 8 l) (by omega)
  have e4 := readUInt_enc_all 8 l (by omega)
  simp [readSubmessageHeartbeat, hfl, List.append_assoc, e1, e2, e3, e4]

theorem readSubmessageGap_enc (st : RState) (fl L r w gs base nbits : Nat) (bm : Buf)
    (hfl : fl % 2 = 1) (hr : r < 4294967296) (hw : w < 4294967296)
    (hgs : gs < 18446744073709551616) (hbase : base < 18446744073709551616)
    (hnb : nbits < 4294967296) (hbm : bm.length = 4 * ((nbits + 31) / 32)) :
    readSubmessageGap st ⟨gapId, fl, L⟩
        (leBytes 4 r ++ leBytes 4 w ++ leBytes 8 gs ++ leBytes 8 base ++ leBytes 4 nbits ++ bm) =
      .ok st (some { baseEvent st .gapEv with
        readerId := r, writerId := w, sn1 := gs, sn2 := base, bits := nbits, payload := bm }) := by
  have h32 : (256 : Nat) ^ 4 = 4294967296 := by norm_num
  have h64 : (256 : Nat) ^ 8 = 18446744073709551616 := by norm_num
  have e1 := readUInt_enc 4 r
    (leBytes 4 w ++ (leBytes 8 gs ++ (leBytes 8 base ++ (leBytes 4 nbits ++ bm)))) (by omega)
  have e2 := readUInt_enc 4 w
    (leBytes 8 gs ++ (leBytes 8 base ++ (leBytes 4 nbits ++ bm))) (by omega)
  have e3 := readUInt_enc 8 gs (leBytes 8 base ++ (leBytes 4 nbits ++ bm)) (by omega)
  have e4 := readUInt_enc 8 base (leBytes 4 nbits ++ bm) (by omega)
  have e5 := readUInt_enc 4 nbits bm (by omega)
  have e6 : readBytes (4 * ((nbits + 31) / 32)) bm = some (bm, []) := by
    rw [← hbm]; exact readBytes_all bm
  simp [readSubmessageGap, hfl, List.append_assoc, e1, e2, e3, e4, e5, e6]

theorem readSubmessageAcknak_enc (st : RState) (fl L r w base nbits cnt : Nat) (bm : Buf)
    (hfl : fl % 2 = 1) (hr : r < 4294967296) (hw : w < 4294967296)
    (hbase : base < 18446744073709551616) (hnb : nbits < 4294967296)
    (hbm : bm.length = 4 * ((nbits + 31) / 32)) (hcnt : cnt < 4294967296) :
    readSubmessageAcknak st ⟨acknackId, fl, L⟩
        (leBytes 4 r ++ leBytes 4 w ++ leBytes 8 base ++ leBytes 4 nbits ++ bm ++ leBytes 4 cnt) =
      .ok st (some { baseEvent st .acknackEv with
        readerId := r, writerId := w, sn1 := base, bits := nbits, payload := bm, count := cnt }) := by
  have h32 : (256 : Nat) ^ 4 = 4294967296 := by norm_num
  have h64 : (256 : Nat) ^ 8 = 18446744073709551616 := by norm_num
  have e1 := readUInt_enc 4 r
    (leBytes 4 w ++ (leBytes 8 base ++ (leBytes 4 nbits ++ (bm ++ leBytes 4 cnt)))) (by omega)
  have e2 := readUInt_enc 4 w
    (leBytes 8 base ++ (leBytes 4 nbits ++ (bm ++ leBytes 4 cnt))) (by omega)
  have e3 := readUInt_enc 8 base (leBytes 4 nbits ++ (bm ++ leBytes 4 cnt)) (by omega)
  have e4 := readUInt_enc 4 nbits (bm ++ leBytes 4 cnt) (by omega)
  have e5 : readBytes (4 * ((nbits + 31) / 32)) (bm ++ leBytes 4 cnt) =
      some (bm, leBytes 4 cnt) := readBytes_exact bm (leBytes 4 cnt) hbm
  have e6 := readUInt_enc_all 4 cnt (by omega)
  simp [readSubmessageAcknak, hfl, List.append_assoc, e1, e2, e3, e4, e5, e6]

theorem readSubmessageInfoDestination_enc (st : RState) (smh : SubmessageHeader_t)
    (gp : Buf) (rest : Buf) (hgp : gp.length = 12) :
    readSubmessageInfoDestination st smh (gp ++ rest) =
      .ok { st with destGuidPref := gp } none := by
  have e := readBytes_exact gp rest hgp
  simp [readSubmessageInfoDestination, e]

theorem readSubmessageInfoSource_enc (st : RState) (smh : SubmessageHeader_t)
    (ver ven gp : Buf) (hver : ver.length = 2) (hven : ven.length = 2) (hgp : gp.length = 12) :
    readSubmessageInfoSource st smh (ver ++ ven ++ gp) =
      .ok { st with sourceVersion := ver, sourceVendorId := ven, sourceGuidPref := gp } none := by
  have e1 := readBytes_exact ver (ven ++ gp) hver
  have e2 := readBytes_exact ven gp hven
  have e3 : readBytes 12 gp = some (gp, []) := by rw [← hgp]; exact readBytes_all gp
  simp [readSubmessageInfoSource, List.append_assoc, e1, e2, e3]

theorem readSubmessageInfoTimestamp_set (st : RState) (smh : SubmessageHeader_t)
    (t : Nat) (rest : Buf) (hfl : smh.flags % 2 = 1) (hbit : smh.flags / 2 % 2 = 0)
    (ht : t < 18446744073709551616) :
    readSubmessageInfoTimestamp st smh (leBytes 8 t ++ rest) =
      .ok { st with haveTimestamp := true, timestamp := t } none := by
  have h64 : (256 : Nat) ^ 8 = 18446744073709551616 := by norm_num
  have e := readUInt_enc 8 t rest (by omega)
  simp [readSubmessageInfoTimestamp, hfl, hbit, e]

theorem readSubmessageInfoTimestamp_invalidate (st : RState) (smh : SubmessageHeader_t)
    (body : Buf) (hbit : smh.flags / 2 % 2 = 1) :
    readSubmessageInfoTimestamp st smh body =
      .ok { st with haveTimestamp := false } none := by
  simp [readSubmessageInfoTimestamp, hbit]

theorem readLocator_enc (loc : Locator_t) (rest : Buf) (h : wfLoc loc = true) :
    readLocator true (encLoc loc ++ rest) = some (loc, rest) := by
  simp only [wfLoc, Bool.and_eq_true, decide_eq_true_eq] at h
  obtain ⟨⟨hk, hp⟩, ha⟩ := h
  have h32 : (256 : Nat) ^ 4 = 4294967296 := by norm_num
  have e1 := readUInt_enc 4 loc.kind (leBytes 4 loc.port ++ (loc.address ++ rest)) (by omega)
  have e2 := readUInt_enc 4 loc.port (loc.address ++ rest) (by omega)
  have e3 := readBytes_exact loc.address rest ha
  simp [readLocator, encLoc, List.append_assoc, e1, e2, e3]

theorem readLocators_enc (ls : List Locator_t) (rest : Buf) (h : ls.all wfLoc = true) :
    readLocators true ls.length (encLocBodies ls ++ rest) = some (ls, rest) := by
  induction ls generalizing rest with
  | nil => simp [readLocators, encLocBodies]
  | cons l t ih =>
    simp only [List.all_cons, Bool.and_eq_true] at h
    have e1 := readLocator_enc l (encLocBodies t ++ rest) h.1
    have e2 := ih rest h.2
    simp [encLocBodies, List.append_assoc, readLocators, e1, e2]

theorem readLocatorList_enc (ls : List Locator_t) (rest : Buf) (h : wfLocs ls = true) :
    readLocatorList true (encLocs ls ++ rest) = some (ls, rest) := by
  simp only [wfLocs, Bool.and_eq_true, decide_eq_true_eq] at h
  have h32 : (256 : Nat) ^ 4 = 4294967296 := by norm_num
  have e0 := readUInt_enc 4 ls.length (encLocBodies ls ++ rest) (by omega)
  have e1 := readLocators_enc ls rest h.2
  simp [readLocatorList, encLocs, List.append_assoc, e0, e1]

theorem readLocatorList_enc_all (ls : List Locator_t) (h : wfLocs ls = true) :
    readLocatorList true (encLocs ls) = some (ls, []) := by
  have e := readLocatorList_enc ls [] h
  simpa using e

theorem readSubmessageInfoReply_enc_uni (st : RState) (smh : SubmessageHeader_t)
    (uni : List Locator_t) (hfl : smh.flags % 2 = 1) (hbit : smh.flags / 2 % 2 = 0)
    (h : wfLocs uni = true) :
    readSubmessageInfoReply st smh (encLocs uni) =
      .ok { st with unicastReplyLocatorList := uni } none := by
  have e := readLocatorList_enc_all uni h
  simp [readSubmessageInfoReply, hfl, hbit, e]

theorem readSubmessageInfoReply_enc_multi (st : RState) (smh : SubmessageHeader_t)
    (uni m : List Locator_t) (hfl : smh.flags % 2 = 1) (hbit : smh.flags / 2 % 2 = 1)
    (hu : wfLocs uni = true) (hm : wfLocs m = true) :
    readSubmessageInfoReply st smh (encLocs uni ++ encLocs m) =
      .ok { st with unicastReplyLocatorList := uni, multicastReplyLocatorList := m } none := by
  have e1 := readLocatorList_enc uni (encLocs m) hu
  have e2 := readLocatorList_enc_all m hm
  simp [readSubmessageInfoReply, hfl, hbit, e1, e2]

theorem readSubmessageInfoDestination_enc_all (st : RState) (smh : SubmessageHeader_t)
    (gp : Buf) (hgp : gp.length = 12) :
    readSubmessageInfoDestination st smh gp =
      .ok { st with destGuidPref := gp } none := by
  have e : readBytes 12 gp = some (gp, []) := by rw [← hgp]; exact readBytes_all gp
  simp [readSubmessageInfoDestination, e]

theorem subFlags_odd (s : Sub) : subFlags s % 2 = 1 := by
  cases s with
  | infoTs t => cases t <;> simp [subFlags]
  | infoReply uni multi => cases multi <;> simp [subFlags]
  | pad body => simp [subFlags]
  | data r w sn pl => simp [subFlags]
  | heartbeat r w f l => simp [subFlags]
  | gap r w gs base nbits bm => simp [subFlags]
  | acknack r w base nbits bm cnt => simp [subFlags]
  | infoDst gp => simp [subFlags]
  | infoSrc ver ven gp => simp [subFlags]

theorem knownKind_subKindId (s : Sub) : knownKind (subKindId s) = true := by
  cases s <;> rfl

theorem encodeSub_length (s : Sub) :
    (encodeSub s).length = 4 + (encodeSubBody s).length := by
  simp [encodeSub, leBytes_length]
  omega

theorem dispatch_enc (st : RState) (s : Sub) (L : Nat) (h : wfSub s = true) :
    dispatch st ⟨subKindId s, subFlags s, L⟩ (encodeSubBody s) =
      .ok (specApply st s) (specEvent st s) := by
  have h' : wfSubFields s = true := by
    simp only [wfSub, Bool.and_eq_true] at h
    exact h.1.1
  cases s with
  | pad body => rfl
  | data r w sn pl =>
    simp only [wfSubFields, Bool.and_eq_true, decide_eq_true_eq] at h'
    obtain ⟨⟨hr, hw⟩, hsn⟩ := h'
    exact readSubmessageData_enc st 1 L r w sn pl rfl hr hw hsn
  | heartbeat r w f l =>
    simp only [wfSubFields, Bool.and_eq_true, decide_eq_true_eq] at h'
    obtain ⟨⟨⟨hr, hw⟩, hf⟩, hl⟩ := h'
    exact readSubmessageHeartbeat_enc st 1 L r w f l rfl hr hw hf hl
  | gap r w gs base nbits bm =>
    simp only [wfSubFields, Bool.and_eq_true, decide_eq_true_eq] at h'
    obtain ⟨⟨⟨⟨⟨hr, hw⟩, hgs⟩, hbase⟩, hnb⟩, hbm⟩ := h'
    exact readSubmessageGap_enc st 1 L r w gs base nbits bm rfl hr hw hgs hbase hnb hbm
  | acknack r w base nbits bm cnt =>
    simp only [wfSubFields, Bool.and_eq_true, decide_eq_true_eq] at h'
    obtain ⟨⟨⟨⟨⟨hr, hw⟩, hbase⟩, hnb⟩, hbm⟩, hcnt⟩ := h'
    exact readSubmessageAcknak_enc st 1 L r w base nbits cnt bm rfl hr hw hbase hnb hbm hcnt
  | infoDst gp =>
    simp only [wfSubFields, decide_eq_true_eq] at h'
    exact readSubmessageInfoDestination_enc_all st ⟨infoDstId, 1, L⟩ gp h'
  | infoSrc ver ven gp =>
    simp only [wfSubFields, Bool.and_eq_true, decide_eq_true_eq] at h'
    obtain ⟨⟨hver, hven⟩, hgp⟩ := h'
    exact readSubmessageInfoSource_enc st ⟨infoSrcId, 1, L⟩ ver ven gp hver hven hgp
  | infoTs t =>
    cases t with
    | some v =>
      simp only [wfSubFields, decide_eq_true_eq] at h'
      have e := readSubmessageInfoTimestamp_set st ⟨infoTsId, 1, L⟩ v [] (by norm_num) (by norm_num) h'
      simpa using e
    | none =>
      exact readSubmessageInfoTimestamp_invalidate st ⟨infoTsId, 3, L⟩ (leBytes 8 0) (by norm_num)
  | infoReply uni multi =>
    cases multi with
    | none =>
      exact readSubmessageInfoReply_enc_uni st ⟨infoReplyId, 1, L⟩ uni (by norm_num) (by norm_num) h'
    | some m =>
      simp only [wfSubFields, Bool.and_eq_true] at h'
      exact readSubmessageInfoReply_enc_multi st ⟨infoReplyId, 3, L⟩ uni m (by norm_num) (by norm_num) h'.1 h'.2

theorem processLoop_cons_enc (f : Nat) (st : RState) (k fl L : Nat) (r1 : Buf)
    (hfl : fl % 2 = 1) (hL : L < 65536) :
    processLoop (f + 1) st (k :: fl :: (leBytes 2 L ++ r1)) =
      if L = 0 then
        if knownKind k then
          match dispatch st ⟨k, fl, 0⟩ r1 with
          | .ok st' ev => ⟨ev.toList, 0, .done, st'⟩
          | .fail => ⟨[], 1, .done, st⟩
        else ⟨[], 0, .dropped .unknownKindSentinel, st⟩
      else if L ≤ r1.length then
        if knownKind k then
          match dispatch st ⟨k, fl, L⟩ (r1.take L) with
          | .ok st' ev =>
            ⟨ev.toList ++ (processLoop f st' (r1.drop L)).events,
             (processLoop f st' (r1.drop L)).errors,
             (processLoop f st' (r1.drop L)).outcome, (processLoop f st' (r1.drop L)).final⟩
          | .fail =>
            ⟨(processLoop f st (r1.drop L)).events, (processLoop f st (r1.drop L)).errors + 1,
             (processLoop f st (r1.drop L)).outcome, (processLoop f st (r1.drop L)).final⟩
        else
          ⟨(processLoop f st (r1.drop L)).events, (processLoop f st (r1.drop L)).errors,
           (processLoop f st (r1.drop L)).outcome, (processLoop f st (r1.drop L)).final⟩
      else ⟨[], 0, .dropped .lengthExceedsBuffer, st⟩ := by
  have hh := readSubmessageHeader_enc k fl L r1 hfl hL
  simp only [processLoop]
  rw [hh]
  rfl

theorem processLoop_encodeSubs (subs : List Sub) : ∀ (st : RState) (fuel : Nat),
    (encodeSubs subs).length ≤ fuel → wfSubs subs = true →
    processLoop fuel st (encodeSubs subs) =
      ⟨specEventsFrom st subs, 0, .done, specFinalFrom st subs⟩ := by
  induction subs with
  | nil =>
    intro st fuel _ _
    cases fuel <;> rfl
  | cons s rest ih =>
    intro st fuel hfuel hwf
    have hs : wfSub s = true := by
      simp only [wfSubs, List.all_cons, Bool.and_eq_true] at hwf
      exact hwf.1
    have hrest : wfSubs rest = true := by
      simp only [wfSubs, List.all_cons, Bool.and_eq_true] at hwf
      exact hwf.2
    have hL1 : 1 ≤ (encodeSubBody s).length := by
      simp only [wfSub, Bool.and_eq_true, decide_eq_true_eq] at hs
      exact hs.1.2
    have hL2 : (encodeSubBody s).length ≤ 65535 := by
      simp only [wfSub, Bool.and_eq_true, decide_eq_true_eq] at hs
      exact hs.2
    have hlen : (encodeSubs (s :: rest)).length =
        4 + (encodeSubBody s).length + (encodeSubs rest).length := by
      simp only [encodeSubs, List.length_append, encodeSub_length]
    obtain ⟨f, rfl⟩ : ∃ f, fuel = f + 1 := by
      cases fuel with
      | zero => omega
      | succ f => exact ⟨f, rfl⟩
    have hshape : encodeSubs (s :: rest) =
        subKindId s :: subFlags s ::
          (leBytes 2 (encodeSubBody s).length ++ (encodeSubBody s ++ encodeSubs rest)) := by
      simp [encodeSubs, encodeSub, List.append_assoc]
    rw [hshape, processLoop_cons_enc f st _ _ _ _ (subFlags_odd s) (by omega),
      if_neg (by omega), if_pos (by simp only [List.length_append]; omega),
      if_pos (knownKind_subKindId s), List.take_left, List.drop_left]
    simp only [dispatch_enc st s _ hs]
    have hf' : (encodeSubs rest).length ≤ f := by omega
    rw [ih (specApply st s) f hf' hrest]
    simp [specEventsFrom, specFinalFrom]

theorem readHeader_enc (d : Datagram) (hv : d.version.length = 2)
    (hven : d.vendorId.length = 2) (hgp : d.guidPref.length = 12) :
    readHeader (encodeDatagram d) =
      .ok (⟨d.version, d.vendorId, d.guidPref⟩, encodeSubs d.subs) := by
  have e0 : readBytes 4
      (rtpsMagic ++ (d.version ++ (d.vendorId ++ (d.guidPref ++ encodeSubs d.subs)))) =
      some (rtpsMagic, d.version ++ (d.vendorId ++ (d.guidPref ++ encodeSubs d.subs))) :=
    readBytes_exact _ _ rfl
  have e1 : readBytes 2 (d.version ++ (d.vendorId ++ (d.guidPref ++ encodeSubs d.subs))) =
      some (d.version, d.vendorId ++ (d.guidPref ++ encodeSubs d.subs)) :=
    readBytes_exact _ _ hv
  have e2 : readBytes 2 (d.vendorId ++ (d.guidPref ++ encodeSubs d.subs)) =
      some (d.vendorId, d.guidPref ++ encodeSubs d.subs) :=
    readBytes_exact _ _ hven
  have e3 : readBytes 12 (d.guidPref ++ encodeSubs d.subs) =
      some (d.guidPref, encodeSubs d.subs) :=
    readBytes_exact _ _ hgp
  simp [readHeader, encodeDatagram, encodeHeader, List.append_assoc, e0, e1, e2, e3]

theorem specEventsFrom_length (st : RState) (subs : List Sub) :
    (specEventsFrom st subs).length = (subs.filter (fun x => isDataBearing x)).length := by
  induction subs generalizing st with
  | nil => rfl
  | cons s rest ih =>
    cases s <;> simp [specEventsFrom, specEvent, isDataBearing, specApply, ih]

/-- C1: for every well-formed datagram (no unrecognized kinds), `processMsg`
forwards exactly one event per data-bearing or control submessage, in wire
order, each carrying the GUID-prefix / timestamp / reply-locator state
established by the preceding INFO_* submessages — i.e. the produced event
list coincides with the spec-level event function, the outcome is `Done`,
and the number of events equals the number of data-bearing/control
submessages. -/
theorem processMsg_events_refine_spec (s : RState) (gp ad : List Nat) (d : Datagram)
    (h : wfDatagram d = true) :
    (processMsg s gp ad (encodeDatagram d)).events = specEventsFrom (initState d) d.subs
  ∧ (processMsg s gp ad (encodeDatagram d)).outcome = .done
  ∧ (processMsg s gp ad (encodeDatagram d)).errors = 0
  ∧ (specEventsFrom (initState d) d.subs).length =
      (d.subs.filter (fun x => isDataBearing x)).length := by
  simp only [wfDatagram, Bool.and_eq_true, decide_eq_true_eq] at h
  obtain ⟨⟨⟨hv, hven⟩, hgp⟩, hsubs⟩ := h
  have hh := readHeader_enc d hv hven hgp
  have hp : processMsg s gp ad (encodeDatagram d) =
      ⟨specEventsFrom (initState d) d.subs, 0, .done,
        specFinalFrom (initState d) d.subs⟩ := by
    unfold processMsg
    rw [hh]
    exact processLoop_encodeSubs d.subs (initState d) _ le_rfl hsubs
  rw [hp]
  exact ⟨rfl, rfl, rfl, specEventsFrom_length _ _⟩

theorem processMsg_events_refine_spec_witness :
    wfDatagram sampleDatagram = true
  ∧ ((processMsg reset [] [] (encodeDatagram sampleDatagram)).events =
        specEventsFrom (initState sampleDatagram) sampleDatagram.subs
    ∧ (processMsg reset [] [] (encodeDatagram sampleDatagram)).outcome = .done
    ∧ (processMsg reset [] [] (encodeDatagram sampleDatagram)).errors = 0
    ∧ (specEventsFrom (initState sampleDatagram) sampleDatagram.subs).length =
        (sampleDatagram.subs.filter (fun x => isDataBearing x)).length) :=
  ⟨by decide, processMsg_events_refine_spec reset [] [] sampleDatagram (by decide)⟩

theorem processLoop_step_fail (fuel : Nat) (st : RState) (k fl : Nat) (body tail : Buf)
    (hk : knownKind k = true) (hfl : fl % 2 = 1) (hL1 : 1 ≤ body.length)
    (hL2 : body.length ≤ 65535)
    (hfail : dispatch st ⟨k, fl, body.length⟩ body = .fail) :
    processLoop (fuel + 1) st (k :: fl :: (leBytes 2 body.length ++ (body ++ tail))) =
      ⟨(processLoop fuel st tail).events, (processLoop fuel st tail).errors + 1,
       (processLoop fuel st tail).outcome, (processLoop fuel st tail).final⟩ := by
  rw [processLoop_cons_enc fuel st k fl body.length (body ++ tail) hfl (by omega),
    if_neg (by omega), if_pos (by simp only [List.length_append]; omega),
    if_pos hk, List.take_left, List.drop_left]
  simp only [hfail]

/-- C3: a recoverable decoder failure on a submessage whose declared length
is usable (explicit and within the remaining buffer) is confined to that
submessage: the orchestrator advances the cursor to exactly `length` bytes
past the body start and parses the rest of the stream as if it started
there, so every subsequent wire-syntactically intact submessage with an
explicit length is still parsed and forwarded (here: the spec-level events
of the remaining well-formed submessages, with exactly one recoverable error
counted and outcome `Done`); only a declared length exceeding the remaining
buffer is fatal for the message. -/
theorem recoverable_submessage_confined (st : RState) (fuel k fl : Nat) (body : Buf)
    (subs : List Sub)
    (hk : knownKind k = true) (hfl : fl % 2 = 1)
    (hL1 : 1 ≤ body.length) (hL2 : body.length ≤ 65535)
    (hfail : dispatch st ⟨k, fl, body.length⟩ body = .fail)
    (hwf : wfSubs subs = true) (hfuel : (encodeSubs subs).length ≤ fuel) :
    processLoop (fuel + 1) st
        (k :: fl :: (leBytes 2 body.length ++ (body ++ encodeSubs subs))) =
      ⟨specEventsFrom st subs, 1, .done, specFinalFrom st subs⟩
  ∧ (∀ (f : Nat) (bad : Buf), bad.length < body.length →
      processLoop (f + 1) st (k :: fl :: (leBytes 2 body.length ++ bad)) =
        ⟨[], 0, .dropped .lengthExceedsBuffer, st⟩) := by
  constructor
  · rw [processLoop_step_fail fuel st k fl body (encodeSubs subs) hk hfl hL1 hL2 hfail,
      processLoop_encodeSubs subs st fuel hfuel hwf]
  · intro f bad hbad
    rw [processLoop_cons_enc f st k fl body.length bad hfl (by omega),
      if_neg (by omega), if_neg (by omega)]

theorem recoverable_submessage_confined_witness :
    knownKind 21 = true
  ∧ dispatch reset ⟨21, 1, 8⟩ [0, 0, 0, 0, 0, 0, 0, 0] = .fail
  ∧ wfSubs [Sub.pad [0]] = true
  ∧ processLoop 6 reset
      (21 :: 1 :: (leBytes 2 (8 : Nat) ++ ([0, 0, 0, 0, 0, 0, 0, 0] ++ encodeSubs [Sub.pad [0]]))) =
      ⟨specEventsFrom reset [Sub.pad [0]], 1, .done, specFinalFrom reset [Sub.pad [0]]⟩
  ∧ processLoop 1 reset (21 :: 1 :: (leBytes 2 (8 : Nat) ++ [0])) =
      ⟨[], 0, .dropped .lengthExceedsBuffer, reset⟩ := by
  refine ⟨by decide, by decide, by decide, ?_, ?_⟩
  · exact (recoverable_submessage_confined reset 5 21 1 [0, 0, 0, 0, 0, 0, 0, 0] [Sub.pad [0]]
      (by decide) (by decide) (by decide) (by decide) (by decide) (by decide) (by decide)).1
  · exact (recoverable_submessage_confined reset 5 21 1 [0, 0, 0, 0, 0, 0, 0, 0] [Sub.pad [0]]
      (by decide) (by decide) (by decide) (by decide) (by decide) (by decide) (by decide)).2
      0 [0] (by decide)

/-- C5: an unknown submessage kind with a usable explicit length is skipped
without failing the message — processing continues at the next submessage
boundary with no event and no error added — while an unknown kind with the
to-end-of-message length sentinel aborts the remaining message as a fatal
framing error. -/
theorem unknown_kind_policy (st : RState) (fuel k fl L : Nat) (body tail : Buf)
    (hk : knownKind k = false) (hfl : fl % 2 = 1)
    (hL1 : 1 ≤ L) (hL2 : L ≤ 65535) (hbody : body.length = L) :
    processLoop (fuel + 1) st (k :: fl :: (leBytes 2 L ++ (body ++ tail))) =
      processLoop fuel st tail
  ∧ (∀ (f : Nat) (st' : RState) (rest : Buf),
      processLoop (f + 1) st' (k :: fl :: (leBytes 2 0 ++ rest)) =
        ⟨[], 0, .dropped .unknownKindSentinel, st'⟩) := by
  constructor
  · subst hbody
    rw [processLoop_cons_enc fuel st k fl body.length (body ++ tail) hfl (by omega),
      if_neg (by omega), if_pos (by simp only [List.length_append]; omega),
      if_neg (by simp [hk]), List.drop_left]
  · intro f st' rest
    rw [processLoop_cons_enc f st' k fl 0 rest hfl (by omega),
      if_pos rfl, if_neg (by simp [hk])]

theorem unknown_kind_policy_witness :
    knownKind 5 = false
  ∧ processLoop 3 reset (5 :: 1 :: (leBytes 2 (2 : Nat) ++ ([7, 7] ++ [1, 1, 0, 0]))) =
      processLoop 2 reset [1, 1, 0, 0]
  ∧ processLoop 9 reset (5 :: 1 :: (leBytes 2 (0 : Nat) ++ [3, 4, 5])) =
      ⟨[], 0, .dropped .unknownKindSentinel, reset⟩ := by
  refine ⟨by decide, ?_, ?_⟩
  · exact (unknown_kind_policy reset 2 5 1 2 [7, 7] [1, 1, 0, 0]
      (by decide) (by decide) (by decide) (by decide) (by decide)).1
  · exact (unknown_kind_policy reset 2 5 1 2 [7, 7] [1, 1, 0, 0]
      (by decide) (by decide) (by decide) (by decide) (by decide)).2 8 reset [3, 4, 5]

/-- C9: every fatal condition surfaces to the caller as a single drop
outcome carrying one of the five reason codes (bad magic, truncated header,
truncated submessage header, length exceeding the remaining buffer,
sentinel misuse on an unknown kind), while a recoverable per-submessage
decoder failure is only counted — the cursor advances by the declared
length and processing of the remaining submessages is exactly what it would
have been, with the error counter incremented. -/
theorem error_propagation_policy :
    (∀ (s : RState) (gp ad : List Nat) (data : Buf) (r : DropReason),
      (processMsg s gp ad data).outcome = .dropped r →
        r = .invalidProtocolId ∨ r = .truncatedHeader ∨ r = .truncatedSubheader ∨
        r = .lengthExceedsBuffer ∨ r = .unknownKindSentinel)
  ∧ (∀ (fuel : Nat) (st : RState) (k fl : Nat) (body tail : Buf),
      knownKind k = true → fl % 2 = 1 → 1 ≤ body.length → body.length ≤ 65535 →
      dispatch st ⟨k, fl, body.length⟩ body = .fail →
      processLoop (fuel + 1) st (k :: fl :: (leBytes 2 body.length ++ (body ++ tail))) =
        ⟨(processLoop fuel st tail).events, (processLoop fuel st tail).errors + 1,
         (processLoop fuel st tail).outcome, (processLoop fuel st tail).final⟩) := by
  constructor
  · intro s gp ad data r _
    cases r
    · exact Or.inl rfl
    · exact Or.inr (Or.inl rfl)
    · exact Or.inr (Or.inr (Or.inl rfl))
    · exact Or.inr (Or.inr (Or.inr (Or.inl rfl)))
    · exact Or.inr (Or.inr (Or.inr (Or.inr rfl)))
  · intro fuel st k fl body tail hk hfl h1 h2 hfail
    exact processLoop_step_fail fuel st k fl body tail hk hfl h1 h2 hfail

theorem error_propagation_policy_witness :
    (DropReason.truncatedHeader = .invalidProtocolId ∨
     DropReason.truncatedHeader = .truncatedHeader ∨
     DropReason.truncatedHeader = .truncatedSubheader ∨
     DropReason.truncatedHeader = .lengthExceedsBuffer ∨
     DropReason.truncatedHeader = .unknownKindSentinel)
  ∧ processLoop 1 reset (21 :: 1 :: (leBytes 2 (8 : Nat) ++ ([0, 0, 0, 0, 0, 0, 0, 0] ++ []))) =
      ⟨(processLoop 0 reset []).events, (processLoop 0 reset []).errors + 1,
       (processLoop 0 reset []).outcome, (processLoop 0 reset []).final⟩ :=
  ⟨error_propagation_policy.1 reset [] [] [] .truncatedHeader (by decide),
   error_propagation_policy.2 0 reset 21 1 [0, 0, 0, 0, 0, 0, 0, 0] []
     (by decide) (by decide) (by decide) (by decide) (by decide)⟩

theorem dispatch_event_state (st : RState) (smh : SubmessageHeader_t) (body : Buf)
    (st' : RState) (ev : Event) (h : dispatch st smh body = .ok st' (some ev)) :
    ev.haveTimestamp = st.haveTimestamp ∧ ev.timestamp = st.timestamp := by
  unfold dispatch at h
  split_ifs at h
  all_goals
    try simp only [readSubmessageData, readSubmessageHeartbeat, readSubmessageGap,
      readSubmessageAcknak, readSubmessagePad, readSubmessageInfoDestination,
      readSubmessageInfoSource, readSubmessageInfoTimestamp, readSubmessageInfoReply] at h
  all_goals repeat' split at h
  all_goals
    first
      | exact (DecRes.noConfusion h)
      | (injection h with h1 h2
         first
           | exact (Option.noConfusion h2)
           | (injection h2 with h3
              subst h3
              exact ⟨rfl, rfl⟩))

/-- C4: decoding INFO_TIMESTAMP without the invalidate flag sets
`haveTimestamp` and stores the decoded timestamp; with the invalidate flag
it sets `haveTimestamp = false`; every event a decoder forwards carries the
current state's `haveTimestamp`/`timestamp`; and in the spec's scenario —
INFO_TIMESTAMP(t), two DATA submessages, an invalidating INFO_TIMESTAMP,
one more DATA — the first two events carry timestamp t and the last
carries none. -/
theorem info_timestamp_semantics :
    (∀ (st : RState) (smh : SubmessageHeader_t) (t : Nat) (rest : Buf),
      smh.flags % 2 = 1 → smh.flags / 2 % 2 = 0 → t < 18446744073709551616 →
      readSubmessageInfoTimestamp st smh (leBytes 8 t ++ rest) =
        .ok { st with haveTimestamp := true, timestamp := t } none)
  ∧ (∀ (st : RState) (smh : SubmessageHeader_t) (body : Buf),
      smh.flags / 2 % 2 = 1 →
      readSubmessageInfoTimestamp st smh body =
        .ok { st with haveTimestamp := false } none)
  ∧ (∀ (st : RState) (smh : SubmessageHeader_t) (body : Buf) (st' : RState) (ev : Event),
      dispatch st smh body = .ok st' (some ev) →
      ev.haveTimestamp = st.haveTimestamp ∧ ev.timestamp = st.timestamp)
  ∧ (∀ (st : RState) (t : Nat), t < 18446744073709551616 →
      ((processLoop
          (encodeSubs [Sub.infoTs (some t), Sub.data 1 2 3 [7], Sub.data 4 5 6 [],
            Sub.infoTs none, Sub.data 7 8 9 []]).length st
          (encodeSubs [Sub.infoTs (some t), Sub.data 1 2 3 [7], Sub.data 4 5 6 [],
            Sub.infoTs none, Sub.data 7 8 9 []])).events.map
        (fun e => (e.haveTimestamp, e.timestamp))) = [(true, t), (true, t), (false, t)]) := by
  refine ⟨fun st smh t rest h1 h2 h3 => readSubmessageInfoTimestamp_set st smh t rest h1 h2 h3,
    fun st smh body hb => readSubmessageInfoTimestamp_invalidate st smh body hb,
    fun st smh body st' ev hd => dispatch_event_state st smh body st' ev hd, ?_⟩
  intro st t ht
  have hwf : wfSubs [Sub.infoTs (some t), Sub.data 1 2 3 [7], Sub.data 4 5 6 [],
      Sub.infoTs none, Sub.data 7 8 9 []] = true := by
    simp [wfSubs, wfSub, wfSubFields, encodeSubBody, leBytes_length, List.all_cons, ht]
  rw [processLoop_encodeSubs _ st _ le_rfl hwf]
  simp [specEventsFrom, specApply, specEvent, baseEvent]

theorem info_timestamp_semantics_witness :
    readSubmessageInfoTimestamp reset ⟨9, 1, 8⟩ (leBytes 8 5 ++ []) =
      .ok { reset with haveTimestamp := true, timestamp := 5 } none
  ∧ readSubmessageInfoTimestamp reset ⟨9, 3, 8⟩ [0, 0, 0, 0, 0, 0, 0, 0] =
      .ok { reset with haveTimestamp := false } none
  ∧ ({ baseEvent reset .dataEv with payload := [0, 0, 0, 0] } : Event).haveTimestamp =
        reset.haveTimestamp
    ∧ ({ baseEvent reset .dataEv with payload := [0, 0, 0, 0] } : Event).timestamp =
        reset.timestamp
  ∧ ((processLoop
        (encodeSubs [Sub.infoTs (some 5), Sub.data 1 2 3 [7], Sub.data 4 5 6 [],
          Sub.infoTs none, Sub.data 7 8 9 []]).length reset
        (encodeSubs [Sub.infoTs (some 5), Sub.data 1 2 3 [7], Sub.data 4 5 6 [],
          Sub.infoTs none, Sub.data 7 8 9 []])).events.map
      (fun e => (e.haveTimestamp, e.timestamp))) = [(true, 5), (true, 5), (false, 5)] :=
  ⟨info_timestamp_semantics.1 reset ⟨9, 1, 8⟩ 5 [] (by decide) (by decide) (by decide),
   info_timestamp_semantics.2.1 reset ⟨9, 3, 8⟩ [0, 0, 0, 0, 0, 0, 0, 0] (by decide),
   (info_timestamp_semantics.2.2.1 reset ⟨21, 1, 20⟩ (List.replicate 20 0) reset
     { baseEvent reset .dataEv with payload := [0, 0, 0, 0] } (by decide)).1,
   (info_timestamp_semantics.2.2.1 reset ⟨21, 1, 20⟩ (List.replicate 20 0) reset
     { baseEvent reset .dataEv with payload := [0, 0, 0, 0] } (by decide)).2,
   info_timestamp_semantics.2.2.2 reset 5 (by decide)⟩

end RTPS
